import Mathlib

/-!
# Verification of the LifeSim deterministic financial state-transition engine

A shallow embedding, over exact rational arithmetic, of the core game logic of
the LifeSim repository:

* `backend/utils.py` — FI-score and metric helpers;
* `backend/game_engine.py` — `DecisionEffect`, `apply_decision_effects`,
  `apply_monthly_cash_flow`, `should_trigger_curveball`, `get_event_type`;
* `backend/mcp_financial_server.py` — `calculate_investment_outcome`,
  `calculate_expense_breakdown`, `validate_balance_sheet`;
* `backend/expense_constraints.py` — `validate_expense_change`.

Python floats are modelled as `ℚ`, Python ints as `ℤ`.  `round(x, 2)` is
modelled as exact round-half-to-even at two decimals (`pyRound2`).  All random
draws (`random.uniform`, `random.random`, `random.choice`,
`random.choices`) are passed in as explicit parameters: a rational draw for a
uniform sample, a natural-number index for a choice from a list.  `print`
statements have no semantic content and are dropped.
-/

namespace LifeSim

/-- A JSON-like value, the element type of the Python dicts `state.assets`
and `DecisionEffect.asset_updates` (whose values are open-ended JSON). -/
inductive PyVal where
  | bool (b : Bool)
  | num (q : ℚ)
  | str (s : String)
  | dict (entries : List (String × PyVal))

/-- `d.get(k)` on a Python dict modelled as an insertion-ordered
association list. -/
def dictGet {α : Type} (d : List (String × α)) (k : String) : Option α :=
  (d.find? (fun kv => kv.1 == k)).map (fun kv => kv.2)

/-- `d[k] = v` on a Python dict: overwrite in place if the key is present
(keeping its position), otherwise append at the end. -/
def dictSet {α : Type} (d : List (String × α)) (k : String) (v : α) :
    List (String × α) :=
  if d.any (fun kv => kv.1 == k) then
    d.map (fun kv => if kv.1 == k then (k, v) else kv)
  else
    d ++ [(k, v)]

/-- `del d[k]` on a Python dict. -/
def dictErase {α : Type} (d : List (String × α)) (k : String) :
    List (String × α) :=
  d.filter (fun kv => !(kv.1 == k))

/-- Round a rational to the nearest integer, ties to even — Python's
`round` applied to an exactly-represented value. -/
def roundHalfEven (q : ℚ) : ℤ :=
  if q - (⌊q⌋ : ℚ) < 1/2 then ⌊q⌋
  else if 1/2 < q - (⌊q⌋ : ℚ) then ⌊q⌋ + 1
  else if ⌊q⌋ % 2 = 0 then ⌊q⌋ else ⌊q⌋ + 1

/-- Python's `round(x, 2)`: round half-to-even at two decimal places. -/
def pyRound2 (q : ℚ) : ℚ :=
  (roundHalfEven (q * 100) : ℚ) / 100

theorem roundHalfEven_intCast (k : ℤ) : roundHalfEven (k : ℚ) = k := by
  unfold roundHalfEven
  norm_num

theorem floor_le_roundHalfEven (q : ℚ) : ⌊q⌋ ≤ roundHalfEven q := by
  unfold roundHalfEven
  split_ifs <;> omega

theorem roundHalfEven_le_floor_add_one (q : ℚ) : roundHalfEven q ≤ ⌊q⌋ + 1 := by
  unfold roundHalfEven
  split_ifs <;> omega

/-- If `x < k + 1/2` then the half-even rounding of `x` is at most `k`. -/
theorem roundHalfEven_le_of_lt_half (k : ℤ) (x : ℚ) (h : x < (k : ℚ) + 1/2) :
    roundHalfEven x ≤ k := by
  have hfl : ⌊x⌋ ≤ k := by
    have hx1 : x < ((k + 1 : ℤ) : ℚ) := by push_cast; linarith
    have := Int.floor_lt.mpr hx1
    omega
  rcases lt_or_eq_of_le hfl with hlt | heq
  · calc roundHalfEven x ≤ ⌊x⌋ + 1 := roundHalfEven_le_floor_add_one x
      _ ≤ k := by omega
  · have hr : x - (⌊x⌋ : ℚ) < 1/2 := by
      rw [heq]; push_cast; linarith
    unfold roundHalfEven
    rw [if_pos hr, heq]

/-- If `k - 1/2 < x` then the half-even rounding of `x` is at least `k`. -/
theorem le_roundHalfEven_of_half_lt (k : ℤ) (x : ℚ) (h : (k : ℚ) - 1/2 < x) :
    k ≤ roundHalfEven x := by
  have hfl : k - 1 ≤ ⌊x⌋ := by
    have hx1 : ((k - 1 : ℤ) : ℚ) ≤ x := by push_cast; linarith
    exact Int.le_floor.mpr hx1
  rcases lt_or_eq_of_le hfl with hlt | heq
  · calc (k : ℤ) ≤ ⌊x⌋ := by omega
      _ ≤ roundHalfEven x := floor_le_roundHalfEven x
  · have hfl2 : ⌊x⌋ = k - 1 := heq.symm
    have hr2 : 1/2 < x - (⌊x⌋ : ℚ) := by
      rw [hfl2]; push_cast; linarith
    have hr1 : ¬ (x - (⌊x⌋ : ℚ) < 1/2) := by linarith
    unfold roundHalfEven
    rw [if_neg hr1, if_pos hr2]
    omega

/-- If `k - 1/2 ≤ x` and `k - 1` is odd then the half-even rounding of `x`
is at least `k` (the tie at `k - 1/2` resolves upward to the even `k`). -/
theorem le_roundHalfEven_of_half_le_of_odd (k : ℤ) (x : ℚ)
    (h : (k : ℚ) - 1/2 ≤ x) (hodd : (k - 1) % 2 ≠ 0) :
    k ≤ roundHalfEven x := by
  rcases lt_or_eq_of_le h with hlt | heq
  · exact le_roundHalfEven_of_half_lt k x hlt
  · have hfl : ⌊x⌋ = k - 1 := by
      rw [← heq]
      rw [Int.floor_eq_iff] <;> push_cast <;> constructor <;> linarith
    have hr : x - (⌊x⌋ : ℚ) = 1/2 := by
      rw [hfl, ← heq]; push_cast; ring
    unfold roundHalfEven
    rw [hr, hfl]
    norm_num
    omega

/-- The half-even rounding of `x` is within one half of `x`. -/
theorem abs_roundHalfEven_sub_le (x : ℚ) :
    |(roundHalfEven x : ℚ) - x| ≤ 1/2 := by
  have h1 : (⌊x⌋ : ℚ) ≤ x := Int.floor_le x
  have h2 : x < (⌊x⌋ : ℚ) + 1 := Int.lt_floor_add_one x
  unfold roundHalfEven
  split_ifs with ha hb hc <;> rw [abs_le] <;> push_cast <;> constructor <;> linarith

/-- `pyRound2` is the identity on whole-cent rationals. -/
theorem pyRound2_int_div (k : ℤ) : pyRound2 ((k : ℚ) / 100) = (k : ℚ) / 100 := by
  unfold pyRound2
  have : ((k : ℚ) / 100) * 100 = (k : ℚ) := by ring
  rw [this, roundHalfEven_intCast]

/-- Every output of `pyRound2` is a whole number of cents. -/
theorem pyRound2_eq_cents (q : ℚ) :
    ∃ k : ℤ, pyRound2 q = (k : ℚ) / 100 :=
  ⟨roundHalfEven (q * 100), rfl⟩

/-- `pyRound2` moves its argument by at most half a cent. -/
theorem abs_pyRound2_sub_le (q : ℚ) : |pyRound2 q - q| ≤ 1/200 := by
  unfold pyRound2
  have h := abs_roundHalfEven_sub_le (q * 100)
  have h100 : ((roundHalfEven (q * 100) : ℚ) / 100) - q =
      ((roundHalfEven (q * 100) : ℚ) - q * 100) / 100 := by ring
  rw [h100, abs_div, abs_of_pos (show (0:ℚ) < 100 by norm_num)]
  linarith

/-! ## `backend/utils.py` — metric and scoring utilities -/

/-- `utils.clamp(value, min_value, max_value)`. -/
def clamp (value min_value max_value : ℚ) : ℚ :=
  max min_value (min value max_value)

/-- `utils.update_metric(current, change)` with the default bounds 0..100.
The arguments are ints, so the final `int(...)` truncation in the source is
the identity. -/
def update_metric (current change : ℤ) : ℤ :=
  max 0 (min (current + change) 100)

/-- `utils.calculate_fi_score(passive_income, monthly_expenses)`. -/
def calculate_fi_score (passive_income monthly_expenses : ℚ) : ℚ :=
  if monthly_expenses ≤ 0 then 0
  else min (passive_income / monthly_expenses * 100) 100

/-! ## `backend/models.py` — the game state record

Only the fields read or written by the core engine functions are modelled;
the ORM bookkeeping columns (`id`, `profile_id`, `game_status`,
`updated_at`) are never touched by them. -/

/-- `models.GameState` (the engine-relevant fields, with the model's
default values). -/
structure GameState where
  current_step : ℤ := 0
  current_age : ℤ := 25
  years_passed : ℚ := 0
  months_passed : ℤ := 0
  month_phase : ℤ := 1
  money : ℚ := 0
  monthly_income : ℚ := 0
  monthly_expenses : ℚ := 0
  investments : ℚ := 0
  passive_income : ℚ := 0
  debts : ℚ := 0
  fi_score : ℚ := 0
  energy : ℤ := 70
  motivation : ℤ := 70
  social_life : ℤ := 70
  financial_knowledge : ℤ := 30
  expense_housing : ℚ := 0
  expense_food : ℚ := 0
  expense_transport : ℚ := 0
  expense_utilities : ℚ := 0
  expense_subscriptions : ℚ := 0
  expense_insurance : ℚ := 0
  expense_other : ℚ := 0
  assets : List (String × PyVal) := []
  risk_factors : List (String × Bool) := []

/-- `models.PlayerProfile` (read-only input; `get_event_type` takes it but
never reads it). -/
structure PlayerProfile where
  age : ℤ := 25
  city : String := "Helsinki"
  education_path : String := ""
  risk_attitude : String := ""

/-! ## `backend/game_engine.py` — decision effects and the applier -/

/-- `game_engine.DecisionEffect` with the constructor's default values.
`risk_factors` values are booleans (cf. the `has_car`/`has_pet` examples in
the data model), so `risk_factor_updates` carries `Bool`. -/
structure DecisionEffect where
  money_change : ℚ := 0
  investment_change : ℚ := 0
  debt_change : ℚ := 0
  income_change : ℚ := 0
  expense_change : ℚ := 0
  passive_income_change : ℚ := 0
  expense_housing_change : ℚ := 0
  expense_food_change : ℚ := 0
  expense_transport_change : ℚ := 0
  expense_utilities_change : ℚ := 0
  expense_subscriptions_change : ℚ := 0
  expense_insurance_change : ℚ := 0
  expense_other_change : ℚ := 0
  energy_change : ℤ := 0
  motivation_change : ℤ := 0
  social_change : ℤ := 0
  knowledge_change : ℤ := 0
  asset_updates : List (String × Option PyVal) := []
  risk_factor_updates : List (String × Bool) := []

/-- The dict returned by `game_engine.apply_decision_effects`. -/
structure TransactionSummary where
  cash_change : ℚ
  investment_change : ℚ
  debt_change : ℚ
  monthly_income_change : ℚ
  monthly_expense_change : ℚ
  passive_income_change : ℚ
  expense_housing_change : ℚ
  expense_food_change : ℚ
  expense_transport_change : ℚ
  expense_utilities_change : ℚ
  expense_subscriptions_change : ℚ
  expense_insurance_change : ℚ
  expense_other_change : ℚ
  cash_balance : ℚ
  investment_balance : ℚ
  debt_balance : ℚ
  monthly_income_total : ℚ
  monthly_expense_total : ℚ
  passive_income_total : ℚ
  description : String

/-- The dict returned by `game_engine.apply_monthly_cash_flow`. -/
structure CashFlowSummary where
  cash_change : ℚ
  income_received : ℚ
  expenses_paid : ℚ
  debt_from_deficit : ℚ
  cash_balance : ℚ
  applied : Bool

/-- Python `f"{x:.0f}"`: round half-to-even to an integer and print it.
(The only divergence from CPython is that a negative value rounding to zero
prints as `0` rather than `-0`.) -/
def formatF0 (q : ℚ) : String :=
  toString (roundHalfEven q)

/-- Python `"+" if x > 0 else ""`. -/
def plusSign (q : ℚ) : String :=
  if 0 < q then "+" else ""

/-- `game_engine.create_transaction_description(effect)`. -/
def create_transaction_description (effect : DecisionEffect) : String :=
  let changes : List String :=
    (if effect.money_change ≠ 0 then
      ["Cash " ++ plusSign effect.money_change ++ "€" ++
        formatF0 effect.money_change] else []) ++
    (if effect.investment_change ≠ 0 then
      ["Investments " ++ plusSign effect.investment_change ++ "€" ++
        formatF0 effect.investment_change] else []) ++
    (if effect.debt_change ≠ 0 then
      ["Debt " ++ plusSign effect.debt_change ++ "€" ++
        formatF0 effect.debt_change] else []) ++
    (if effect.income_change ≠ 0 then
      ["Monthly Income " ++ plusSign effect.income_change ++ "€" ++
        formatF0 effect.income_change ++ "/mo"] else []) ++
    (if effect.expense_change ≠ 0 then
      ["Monthly Expenses " ++ plusSign effect.expense_change ++ "€" ++
        formatF0 effect.expense_change ++ "/mo"] else []) ++
    (if effect.passive_income_change ≠ 0 then
      ["Passive Income " ++ plusSign effect.passive_income_change ++ "€" ++
        formatF0 effect.passive_income_change ++ "/mo"] else [])
  if changes = [] then "No financial changes"
  else String.intercalate "; " changes

/-- The asset-update loop of `apply_decision_effects`: a `None` value
deletes the key when present, any other value upserts it. -/
def applyAssetUpdates (assets : List (String × PyVal))
    (updates : List (String × Option PyVal)) : List (String × PyVal) :=
  updates.foldl
    (fun d kv =>
      match kv.2 with
      | none => if d.any (fun p => p.1 == kv.1) then dictErase d kv.1 else d
      | some v => dictSet d kv.1 v)
    assets

/-- The risk-factor-update loop of `apply_decision_effects`: plain
overwrite. -/
def applyRiskFactorUpdates (rf : List (String × Bool))
    (updates : List (String × Bool)) : List (String × Bool) :=
  updates.foldl (fun d kv => dictSet d kv.1 kv.2) rf

/-- `game_engine.apply_monthly_cash_flow(state)`: new state and the
returned cash-flow dict.  At any `month_phase ≠ 1` the state is untouched
and the summary reports `applied = False`. -/
def apply_monthly_cash_flow (s : GameState) : GameState × CashFlowSummary :=
  if s.month_phase ≠ 1 then
    (s, { cash_change := 0, income_received := 0, expenses_paid := 0,
          debt_from_deficit := 0, cash_balance := s.money, applied := false })
  else
    let total_income := s.monthly_income + s.passive_income
    let money1 := s.money + total_income - s.monthly_expenses
    -- "Convert negative cash to debt if needed" (deficit = abs(money))
    let money2 := if money1 < 0 then 0 else money1
    let debts2 := if money1 < 0 then s.debts + |money1| else s.debts
    let debt_from_deficit := if money1 < 0 then |money1| else 0
    ({ s with money := money2, debts := debts2 },
     { cash_change := total_income - s.monthly_expenses,
       income_received := total_income,
       expenses_paid := s.monthly_expenses,
       debt_from_deficit := debt_from_deficit,
       cash_balance := money2,
       applied := true })

/-- `game_engine.apply_decision_effects(state, effect)`: new state and the
returned transaction summary, translated statement by statement.  The
direct `monthly_expenses += expense_change` update is dead code — it is
overwritten by the category-sum recomputation — and so does not appear as
a binding here. -/
def apply_decision_effects (s : GameState) (e : DecisionEffect) :
    GameState × TransactionSummary :=
  -- Update financial metrics
  let money1 := s.money + e.money_change
  let investments1 := s.investments + e.investment_change
  let debts1 := s.debts + e.debt_change
  let monthly_income1 := s.monthly_income + e.income_change
  let passive_income1 := s.passive_income + e.passive_income_change
  -- Update expense category breakdowns
  let expense_housing1 := s.expense_housing + e.expense_housing_change
  let expense_food1 := s.expense_food + e.expense_food_change
  let expense_transport1 := s.expense_transport + e.expense_transport_change
  let expense_utilities1 := s.expense_utilities + e.expense_utilities_change
  let expense_subscriptions1 :=
    s.expense_subscriptions + e.expense_subscriptions_change
  let expense_insurance1 := s.expense_insurance + e.expense_insurance_change
  let expense_other1 := s.expense_other + e.expense_other_change
  -- Recalculate total monthly expenses from categories
  let monthly_expenses1 := expense_housing1 + expense_food1 +
    expense_transport1 + expense_utilities1 +
    expense_subscriptions1 + expense_insurance1 + expense_other1
  -- Convert negative cash to debt (deficit = abs(money))
  let money2 := if money1 < 0 then 0 else money1
  let debts2 := if money1 < 0 then debts1 + |money1| else debts1
  let debt_change2 :=
    if money1 < 0 then e.debt_change + |money1| else e.debt_change
  -- Update life metrics with bounds checking
  let energy1 := update_metric s.energy e.energy_change
  let motivation1 := update_metric s.motivation e.motivation_change
  let social_life1 := update_metric s.social_life e.social_change
  let financial_knowledge1 :=
    update_metric s.financial_knowledge e.knowledge_change
  -- Update assets and risk factors
  let assets1 := applyAssetUpdates s.assets e.asset_updates
  let risk_factors1 := applyRiskFactorUpdates s.risk_factors
    e.risk_factor_updates
  -- Recalculate FI score
  let fi_score1 := calculate_fi_score passive_income1 monthly_expenses1
  -- Increment step
  let current_step1 := s.current_step + 1
  -- Advance month phase (1 -> 2 -> 3 -> 1)
  let month_phase1 := s.month_phase + 1
  let wrap := 3 < month_phase1
  let month_phase2 := if wrap then 1 else month_phase1
  let months_passed2 := if wrap then s.months_passed + 1 else s.months_passed
  -- Update age every 12 months
  let current_age2 :=
    if wrap then
      (if months_passed2 % 12 = 0 then s.current_age + 1 else s.current_age)
    else s.current_age
  let years_passed2 :=
    if wrap then (months_passed2 : ℚ) / 12 else s.years_passed
  ({ current_step := current_step1,
     current_age := current_age2,
     years_passed := years_passed2,
     months_passed := months_passed2,
     month_phase := month_phase2,
     money := money2,
     monthly_income := monthly_income1,
     monthly_expenses := monthly_expenses1,
     investments := investments1,
     passive_income := passive_income1,
     debts := debts2,
     fi_score := fi_score1,
     energy := energy1,
     motivation := motivation1,
     social_life := social_life1,
     financial_knowledge := financial_knowledge1,
     expense_housing := expense_housing1,
     expense_food := expense_food1,
     expense_transport := expense_transport1,
     expense_utilities := expense_utilities1,
     expense_subscriptions := expense_subscriptions1,
     expense_insurance := expense_insurance1,
     expense_other := expense_other1,
     assets := assets1,
     risk_factors := risk_factors1 },
   { cash_change := e.money_change,
     investment_change := e.investment_change,
     debt_change := debt_change2,
     monthly_income_change := e.income_change,
     monthly_expense_change := e.expense_change,
     passive_income_change := e.passive_income_change,
     expense_housing_change := e.expense_housing_change,
     expense_food_change := e.expense_food_change,
     expense_transport_change := e.expense_transport_change,
     expense_utilities_change := e.expense_utilities_change,
     expense_subscriptions_change := e.expense_subscriptions_change,
     expense_insurance_change := e.expense_insurance_change,
     expense_other_change := e.expense_other_change,
     cash_balance := money2,
     investment_balance := investments1,
     debt_balance := debts2,
     monthly_income_total := monthly_income1,
     monthly_expense_total := monthly_expenses1,
     passive_income_total := passive_income1,
     description := create_transaction_description e })

/-! ## `backend/game_engine.py` — event selection state machine -/

/-- `game_engine.PHASE_1_EVENTS`. -/
def PHASE_1_EVENTS : List String :=
  ["monthly_budget", "savings_decision", "investment_planning",
   "debt_payment_plan", "income_review"]

/-- `game_engine.PHASE_2_3_EVENTS`. -/
def PHASE_2_3_EVENTS : List String :=
  ["social_event", "small_purchase", "minor_emergency", "daily_choice",
   "entertainment_option", "maintenance_issue", "side_hustle_opportunity",
   "unexpected_expense"]

/-- Truthiness of `state.risk_factors.get(key)` (missing key → `None` →
falsy). -/
def riskGet (s : GameState) (key : String) : Bool :=
  (dictGet s.risk_factors key).getD false

/-- `game_engine.should_trigger_curveball(state)`.  The `random.random()`
draw is the explicit parameter `r` (a uniform sample from `[0, 1)`). -/
def should_trigger_curveball (s : GameState) (r : ℚ) : Bool :=
  -- Base probability (lower for phase 2/3)
  let base0 : ℚ := if s.month_phase = 2 ∨ s.month_phase = 3 then 8/100
    else 15/100
  -- Increase probability based on risk factors
  let base1 := if riskGet s "has_car" then base0 + 3/100 else base0
  let base2 := if riskGet s "has_pet" then base1 + 3/100 else base1
  let base3 := if s.monthly_income * 3 < s.debts then base2 + 5/100 else base2
  -- Never on first month
  if s.months_passed < 1 then false
  else decide (r < base3)

/-- The weighted phase-2/3 event table of `get_event_type` (name, weight). -/
def phase23Weights (s : GameState) : List (String × ℕ) :=
  [("social_event", if 50 < s.energy then 2 else 1),
   ("small_purchase", if s.monthly_expenses < s.money then 2 else 1),
   ("minor_emergency", 1),
   ("daily_choice", 2),
   ("entertainment_option", if s.social_life < 60 then 2 else 1),
   ("maintenance_issue", if riskGet s "has_car" then 2 else 1),
   ("side_hustle_opportunity", if 60 < s.motivation then 1 else 0),
   ("unexpected_expense", 1)]

/-- `game_engine.get_event_type(state, profile)`.  The random draws are
explicit parameters: `r` is the `random.random()` sample inside
`should_trigger_curveball`; `i` selects from `PHASE_1_EVENTS`
(`random.choice`); `j` selects from the positive-weight phase-2/3 events
(`random.choices` — the weights shape the distribution but the support is
exactly the positive-weight names, so any index models any possible
draw). -/
def get_event_type (s : GameState) (_profile : PlayerProfile) (r : ℚ)
    (i j : ℕ) : String :=
  if s.month_phase = 1 then
    -- Check for debt
    if s.monthly_income * 2 < s.debts then "debt_payment_plan"
    else PHASE_1_EVENTS.getD (i % PHASE_1_EVENTS.length) "monthly_budget"
  else
    -- Check for curveball (lower probability for smaller events)
    if should_trigger_curveball s r then "curveball"
    else
      let available :=
        ((phase23Weights s).filter (fun kv => 0 < kv.2)).map (fun kv => kv.1)
      available.getD (j % available.length) "daily_choice"

/-! ## `backend/mcp_financial_server.py` — deterministic financial
calculator -/

/-- The members of the `AssetType` enum. -/
def ASSET_TYPES : List String :=
  ["index_fund", "tech_stocks", "bonds", "savings_account", "crypto",
   "real_estate"]

/-- The members of the `ResultQuality` enum. -/
def RESULT_QUALITIES : List String :=
  ["major_gain", "gain", "neutral", "minor_loss", "loss", "major_loss"]

/-- `mcp_financial_server.ASSET_YIELDS` (annual yield per asset type). -/
def ASSET_YIELDS (asset : String) : ℚ :=
  if asset = "index_fund" then 5/100
  else if asset = "tech_stocks" then 8/100
  else if asset = "bonds" then 3/100
  else if asset = "savings_account" then 1/100
  else if asset = "crypto" then 10/100
  else 6/100  -- real_estate

/-- `mcp_financial_server.OUTCOME_MULTIPLIERS` (closed multiplier band per
outcome quality). -/
def OUTCOME_MULTIPLIERS (quality : String) : ℚ × ℚ :=
  if quality = "major_gain" then (120/100, 135/100)
  else if quality = "gain" then (105/100, 115/100)
  else if quality = "neutral" then (98/100, 102/100)
  else if quality = "minor_loss" then (90/100, 95/100)
  else if quality = "loss" then (70/100, 85/100)
  else (30/100, 60/100)  -- major_loss

/-- The dict returned by `calculate_investment_outcome`. -/
structure InvestmentOutcome where
  money_change : ℚ
  investment_change : ℚ
  passive_income_change : ℚ
  net_gain_loss : ℚ
deriving DecidableEq

/-- `mcp_financial_server.calculate_investment_outcome(principal,
asset_type, result_quality)`.  The `random.uniform(lo, hi)` draw from the
outcome band is the explicit parameter `multiplier`; the enum
constructions raise `ValueError` on unknown names, modelled as
`Except.error`. -/
def calculate_investment_outcome (principal : ℚ)
    (asset_type result_quality : String) (multiplier : ℚ) :
    Except String InvestmentOutcome :=
  if ¬ (ASSET_TYPES.contains asset_type ∧
        RESULT_QUALITIES.contains result_quality) then
    .error "Invalid asset_type or result_quality"
  else if principal = 0 then
    .ok { money_change := 0, investment_change := 0,
          passive_income_change := 0, net_gain_loss := 0 }
  else
    -- Calculate final investment value
    let final_value := |principal| * multiplier
    -- Calculate gain/loss
    let net_gain_loss := final_value - |principal|
    -- For investment (positive principal): money decreases, investment
    -- increases; for divestment (negative principal): signs swap
    let money_change := if 0 < principal then -|principal| else final_value
    let investment_change := if 0 < principal then final_value else -|principal|
    -- Monthly passive income from the new investment balance
    let annual_yield := ASSET_YIELDS asset_type
    let monthly_yield := annual_yield / 12
    let passive_income_change := investment_change * monthly_yield
    .ok { money_change := pyRound2 money_change,
          investment_change := pyRound2 investment_change,
          passive_income_change := pyRound2 passive_income_change,
          net_gain_loss := pyRound2 net_gain_loss }

/-- The dict returned by `calculate_expense_breakdown`. -/
structure ExpenseBreakdown where
  expense_housing : ℚ
  expense_food : ℚ
  expense_transport : ℚ
  expense_utilities : ℚ
  expense_subscriptions : ℚ
  expense_insurance : ℚ
  expense_other : ℚ
deriving DecidableEq

/-- Sum of the seven values of an `ExpenseBreakdown`
(`sum(breakdown.values())`). -/
def ExpenseBreakdown.total (b : ExpenseBreakdown) : ℚ :=
  b.expense_housing + b.expense_food + b.expense_transport +
  b.expense_utilities + b.expense_subscriptions + b.expense_insurance +
  b.expense_other

/-- `mcp_financial_server.calculate_expense_breakdown(total_expenses, city,
has_car, lifestyle_level)`.  The base percentages are overridden per
lifestyle level, then adjusted for car ownership (`city` is accepted and
ignored, as in the source); each of the six non-"other" categories is
rounded to cents and "other" absorbs the rounded remainder. -/
def calculate_expense_breakdown (total_expenses : ℚ) (_city : String)
    (has_car : Bool) (lifestyle_level : ℤ) : ExpenseBreakdown :=
  -- Base percentages for moderate lifestyle, overridden per lifestyle level
  let pct_housing : ℚ :=
    if lifestyle_level = 1 then 40/100
    else if lifestyle_level = 3 then 32/100
    else if lifestyle_level = 4 then 30/100
    else 35/100
  let pct_food : ℚ :=
    if lifestyle_level = 1 then 18/100
    else if lifestyle_level = 3 then 22/100
    else if lifestyle_level = 4 then 25/100
    else 20/100
  let pct_subscriptions : ℚ :=
    if lifestyle_level = 1 then 3/100
    else if lifestyle_level = 3 then 8/100
    else if lifestyle_level = 4 then 10/100
    else 5/100
  let pct_other : ℚ :=
    if lifestyle_level = 1 then 10/100
    else if lifestyle_level = 3 then 18/100
    else if lifestyle_level = 4 then 20/100
    else 15/100
  -- Adjust for car ownership (reduction = 0.08 spread over three keys)
  let pct_housing := if has_car then pct_housing - (8/100) / 3 else pct_housing
  let pct_food := if has_car then pct_food - (8/100) / 3 else pct_food
  let pct_other := if has_car then pct_other - (8/100) / 3 else pct_other
  let pct_transport : ℚ := if has_car then 15/100 else 10/100
  let pct_insurance : ℚ := if has_car then 10/100 else 7/100
  let pct_utilities : ℚ := 8/100
  -- Calculate actual amounts; "other" gets the remainder for an exact sum
  let eh := pyRound2 (total_expenses * pct_housing)
  let ef := pyRound2 (total_expenses * pct_food)
  let et := pyRound2 (total_expenses * pct_transport)
  let eu := pyRound2 (total_expenses * pct_utilities)
  let es := pyRound2 (total_expenses * pct_subscriptions)
  let ei := pyRound2 (total_expenses * pct_insurance)
  let eo := pyRound2 (total_expenses - (eh + ef + et + eu + es + ei))
  { expense_housing := eh, expense_food := ef, expense_transport := et,
    expense_utilities := eu, expense_subscriptions := es,
    expense_insurance := ei, expense_other := eo }

/-- `mcp_financial_server.validate_balance_sheet(money_before,
investments_before, money_change, investment_change)`.  (The embedded
message strings carry the same content as the Python f-strings, printing
the rationals with `toString` instead of the float `repr`.) -/
def validate_balance_sheet (money_before investments_before money_change
    investment_change : ℚ) : Bool × String :=
  -- Check for insufficient funds
  if money_before + money_change < 0 then
    (false, "Insufficient funds: balance " ++ toString money_before ++
      " + change " ++ toString money_change ++ " = negative")
  else
    let total_before := money_before + investments_before
    let total_after := (money_before + money_change) +
      (investments_before + investment_change)
    let wealth_change := total_after - total_before
    let expected_wealth_change := money_change + investment_change
    -- Allow small rounding errors (0.01)
    if 1/100 < |wealth_change - expected_wealth_change| then
      (false, "Balance sheet error: wealth change " ++
        toString wealth_change ++ " != money_change " ++
        toString money_change ++ " + investment_change " ++
        toString investment_change)
    else
      (true, "Valid transaction (wealth change: €" ++
        toString wealth_change ++ ")")

/-! ## `backend/expense_constraints.py` — expense floors -/

/-- `expense_constraints.EXPENSE_MINIMUMS` (`.get(category, 0.0)`). -/
def EXPENSE_MINIMUMS (category : String) : ℚ :=
  if category = "housing" then 300
  else if category = "food" then 150
  else if category = "transport" then 30
  else if category = "utilities" then 50
  else if category = "subscriptions" then 0
  else if category = "insurance" then 20
  else if category = "other" then 20
  else 0

/-- Python `str.lower()` (the city names involved are ASCII, on which
per-character lowercasing coincides with `str.lower`). -/
def pyLower (s : String) : String :=
  ⟨s.data.map Char.toLower⟩

/-- The effective per-category floor computed inside
`validate_expense_change`: the housing minimum is raised to 400 for the
Helsinki-area cities (matched on `city.lower()`). -/
def expenseFloor (category city : String) : ℚ :=
  let minimum := EXPENSE_MINIMUMS category
  if category = "housing" ∧
      ["helsinki", "espoo", "vantaa"].contains (pyLower city) then
    max minimum 400
  else minimum

/-- `expense_constraints.validate_expense_change(category, current_value,
change, city)`. -/
def validate_expense_change (category : String) (current_value change : ℚ)
    (city : String) : ℚ × String :=
  let minimum := expenseFloor category city
  let new_value := current_value + change
  -- If trying to go below minimum, cap the reduction
  if new_value < minimum then
    (minimum - current_value,
     "Cannot reduce " ++ category ++ " below €" ++ formatF0 minimum ++
       "/month (minimum living standard)")
  else (change, "")

/-! ## Shared witness inputs -/

/-- A sample mid-game state whose `monthly_expenses` equals the sum of its
seven expense categories (500+300+100+100+50+50+400 = 1500). -/
def sampleState : GameState :=
  { current_step := 7, current_age := 25, years_passed := 0,
    months_passed := 2, month_phase := 1, money := 1000,
    monthly_income := 2500, monthly_expenses := 1500, investments := 500,
    passive_income := 10, debts := 0, fi_score := 0, energy := 70,
    motivation := 70, social_life := 70, financial_knowledge := 30,
    expense_housing := 500, expense_food := 300, expense_transport := 100,
    expense_utilities := 100, expense_subscriptions := 50,
    expense_insurance := 50, expense_other := 400, assets := [],
    risk_factors := [("has_car", true)] }

/-- The gym-and-cooking-class lifestyle option: `expense_change = 60` and
nothing financial besides it. -/
def lifestyleEffect : DecisionEffect :=
  { expense_change := 60, energy_change := 15, motivation_change := 10 }

/-! ## Claim theorems -/

/-- C2: after every call to `apply_decision_effects`, on any input state
and any effect, the resulting `monthly_expenses` equals exactly the sum of
the seven expense category fields, because the total is re-derived from
the categories. -/
theorem monthly_expenses_eq_category_sum (s : GameState)
    (e : DecisionEffect) :
    (apply_decision_effects s e).1.monthly_expenses =
      (apply_decision_effects s e).1.expense_housing +
      (apply_decision_effects s e).1.expense_food +
      (apply_decision_effects s e).1.expense_transport +
      (apply_decision_effects s e).1.expense_utilities +
      (apply_decision_effects s e).1.expense_subscriptions +
      (apply_decision_effects s e).1.expense_insurance +
      (apply_decision_effects s e).1.expense_other := rfl

/-- C3: the state produced by `apply_decision_effects` does not depend on
the aggregate `expense_change` field: two effects differing only there
yield identical states (the aggregate-delta addition is dead code,
overwritten by the category-sum recomputation), while the delta is still
reported in the summary's `monthly_expense_change`; and an effect whose
seven category deltas are all zero leaves `monthly_expenses` unchanged on
any state satisfying the category-sum invariant. -/
theorem expense_change_does_not_affect_state (s : GameState)
    (e : DecisionEffect) (c : ℚ) :
    (apply_decision_effects s { e with expense_change := c }).1 =
      (apply_decision_effects s e).1 ∧
    (apply_decision_effects s
        { e with expense_change := c }).2.monthly_expense_change = c ∧
    (e.expense_housing_change = 0 → e.expense_food_change = 0 →
     e.expense_transport_change = 0 → e.expense_utilities_change = 0 →
     e.expense_subscriptions_change = 0 → e.expense_insurance_change = 0 →
     e.expense_other_change = 0 →
     s.monthly_expenses = s.expense_housing + s.expense_food +
       s.expense_transport + s.expense_utilities + s.expense_subscriptions +
       s.expense_insurance + s.expense_other →
     (apply_decision_effects s e).1.monthly_expenses =
       s.monthly_expenses) := by
  refine ⟨rfl, rfl, fun h1 h2 h3 h4 h5 h6 h7 hinv => ?_⟩
  show s.expense_housing + e.expense_housing_change +
      (s.expense_food + e.expense_food_change) +
      (s.expense_transport + e.expense_transport_change) +
      (s.expense_utilities + e.expense_utilities_change) +
      (s.expense_subscriptions + e.expense_subscriptions_change) +
      (s.expense_insurance + e.expense_insurance_change) +
      (s.expense_other + e.expense_other_change) = s.monthly_expenses
  rw [h1, h2, h3, h4, h5, h6, h7, hinv]
  ring

/-- C3 witness: on the sample state, the lifestyle option (which carries
only `expense_change = 60`) produces the same state as its
`expense_change := 40` variant, and leaves `monthly_expenses` at 1500. -/
theorem expense_change_does_not_affect_state_witness :
    (apply_decision_effects sampleState
        { lifestyleEffect with expense_change := 40 }).1 =
      (apply_decision_effects sampleState lifestyleEffect).1 ∧
    (apply_decision_effects sampleState lifestyleEffect).1.monthly_expenses =
      sampleState.monthly_expenses :=
  ⟨(expense_change_does_not_affect_state sampleState lifestyleEffect 40).1,
   (expense_change_does_not_affect_state sampleState lifestyleEffect 40).2.2
     rfl rfl rfl rfl rfl rfl rfl (by norm_num [sampleState])⟩

/-- C4 counterexample: the claim "the returned value is never negative"
fails — with negative passive income and positive expenses the score is
the raw negative ratio: `calculate_fi_score (-1) 1 = -100 < 0`. -/
theorem calculate_fi_score_negative_counterexample :
    calculate_fi_score (-1) 1 < 0 := by
  norm_num [calculate_fi_score]

/-- C4 (amended): `calculate_fi_score` returns
`min(passive_income/monthly_expenses*100, 100)` when expenses are
positive and `0` otherwise (in particular `calculate_fi_score x 0 = 0`);
the value never exceeds 100, and is never negative provided
`passive_income ≥ 0`. -/
theorem calculate_fi_score_spec (p m : ℚ) :
    (0 < m → calculate_fi_score p m = min (p / m * 100) 100) ∧
    (m ≤ 0 → calculate_fi_score p m = 0) ∧
    calculate_fi_score p m ≤ 100 ∧
    (0 ≤ p → 0 ≤ calculate_fi_score p m) := by
  unfold calculate_fi_score
  by_cases hm : m ≤ 0
  · rw [if_pos hm]
    exact ⟨fun h0 => absurd hm (not_le.mpr h0), fun _ => rfl, by norm_num,
      fun _ => le_refl 0⟩
  · rw [if_neg hm]
    push_neg at hm
    refine ⟨fun _ => rfl, fun h0 => absurd h0 (not_le.mpr hm),
      min_le_right _ _, fun hp => ?_⟩
    have hq : 0 ≤ p / m * 100 := by positivity
    exact le_min hq (by norm_num)

/-- C4 witness: the amended theorem instantiated at (50, 2) and at the
zero-expense boundary (50, 0). -/
theorem calculate_fi_score_spec_witness :
    ((0:ℚ) < 2 ∧ calculate_fi_score 50 2 = min (50 / 2 * 100) 100) ∧
    ((0:ℚ) ≤ 0 ∧ calculate_fi_score 50 0 = 0) ∧
    ((0:ℚ) ≤ 50 ∧ 0 ≤ calculate_fi_score 50 2) :=
  ⟨⟨by norm_num, (calculate_fi_score_spec 50 2).1 (by norm_num)⟩,
   ⟨le_refl 0, (calculate_fi_score_spec 50 0).2.1 (le_refl 0)⟩,
   ⟨by norm_num, (calculate_fi_score_spec 50 2).2.2.2 (by norm_num)⟩⟩

/-- C10: in exact arithmetic the balance-sheet-mismatch branch of
`validate_balance_sheet` is unreachable — the computed wealth change is
identically `money_change + investment_change` — so the result is valid
if and only if `money_before + money_change ≥ 0`; every failure is the
insufficient-funds case. -/
theorem validate_balance_sheet_valid_iff (money_before investments_before
    money_change investment_change : ℚ) :
    (validate_balance_sheet money_before investments_before money_change
        investment_change).1 = true ↔ 0 ≤ money_before + money_change := by
  simp only [validate_balance_sheet]
  split_ifs with h1 h2
  · exact ⟨fun hf => hf.elim, fun hge => absurd h1 (not_lt.mpr hge)⟩
  · exfalso
    have hz : money_before + money_change +
        (investments_before + investment_change) -
        (money_before + investments_before) -
        (money_change + investment_change) = 0 := by ring
    rw [hz] at h2
    norm_num at h2
  · exact ⟨fun _ => not_lt.mp h1, fun _ => rfl⟩

/-- C7: `validate_expense_change` caps any change that would land below
the effective category floor (housing raised to 400 in the Helsinki-area
cities) so the new value equals exactly the floor, returning a non-empty
warning; otherwise it passes the requested change through with an empty
warning; and when the current value is already below the floor the
returned (capping) delta is strictly positive — the value self-heals
upward to the floor. -/
theorem validate_expense_change_spec (category city : String)
    (current_value change : ℚ) :
    (current_value + change < expenseFloor category city →
      (validate_expense_change category current_value change city).1 =
        expenseFloor category city - current_value ∧
      current_value +
        (validate_expense_change category current_value change city).1 =
        expenseFloor category city ∧
      (validate_expense_change category current_value change city).2 ≠ "") ∧
    (expenseFloor category city ≤ current_value + change →
      validate_expense_change category current_value change city =
        (change, "")) ∧
    (current_value < expenseFloor category city →
      current_value + change < expenseFloor category city →
      0 < (validate_expense_change category current_value change city).1) := by
  unfold validate_expense_change
  by_cases h : current_value + change < expenseFloor category city
  · rw [if_pos h]
    refine ⟨fun _ => ⟨rfl, by ring, fun hs => ?_⟩,
      fun hge => absurd h (not_lt.mpr hge), fun hlow _ => ?_⟩
    · have h2 := congrArg String.length hs
      repeat rw [String.length_append] at h2
      have h3 : "Cannot reduce ".length = 14 := rfl
      have h4 : ("" : String).length = 0 := rfl
      rw [h3, h4] at h2
      omega
    · show 0 < expenseFloor category city - current_value
      linarith
  · rw [if_neg h]
    exact ⟨fun hlt => absurd hlt h, fun _ => rfl, fun _ hlt => absurd hlt h⟩

/-- C7 witness: reducing food from 140 by 20 in Tampere (already below the
150 floor) is capped to a positive delta of +10 reaching the floor with a
warning; reducing housing from 450 by 30 in Berlin passes through. -/
theorem validate_expense_change_spec_witness :
    ((140 : ℚ) + (-20) < expenseFloor "food" "Tampere" ∧
      (validate_expense_change "food" 140 (-20) "Tampere").1 =
        expenseFloor "food" "Tampere" - 140 ∧
      (140 : ℚ) < expenseFloor "food" "Tampere" ∧
      0 < (validate_expense_change "food" 140 (-20) "Tampere").1) ∧
    (expenseFloor "housing" "Berlin" ≤ (450 : ℚ) + (-30) ∧
      validate_expense_change "housing" 450 (-30) "Berlin" = (-30, "")) := by
  have hf150 : expenseFloor "food" "Tampere" = 150 := by decide
  have hb300 : expenseFloor "housing" "Berlin" = 300 := by decide
  have hfood : (140 : ℚ) + (-20) < expenseFloor "food" "Tampere" := by
    rw [hf150]; norm_num
  have hlow : (140 : ℚ) < expenseFloor "food" "Tampere" := by
    rw [hf150]; norm_num
  have hhous : expenseFloor "housing" "Berlin" ≤ (450 : ℚ) + (-30) := by
    rw [hb300]; norm_num
  exact ⟨⟨hfood,
      (validate_expense_change_spec "food" "Tampere" 140 (-20)).1 hfood |>.1,
      hlow,
      (validate_expense_change_spec "food" "Tampere" 140 (-20)).2.2 hlow
        hfood⟩,
    ⟨hhous,
      (validate_expense_change_spec "housing" "Berlin" 450 (-30)).2.1 hhous⟩⟩

/-- A state with negative cash outside phase 1: `apply_monthly_cash_flow`
is a no-op there and leaves the negative balance in place. -/
def negCashState : GameState :=
  { money := -100, month_phase := 2 }

/-- C1 counterexample: the claim "after apply_monthly_cash_flow the stored
state.money is >= 0" fails for every-game-state quantification — on a
state with `money = -100` and `month_phase = 2` the function returns
without touching `money`. -/
theorem money_nonneg_counterexample :
    ¬ (0 ≤ (apply_monthly_cash_flow negCashState).1.money) := by
  norm_num [apply_monthly_cash_flow, negCashState]

/-- C1 (amended): after `apply_decision_effects` the stored money is
always ≥ 0, and when the applied deltas would drive it negative the
absolute deficit moves to `debts` and is folded into the summary's
`debt_change`; after `apply_monthly_cash_flow` the same holds provided the
flow applies (`month_phase = 1`) or the incoming money was already ≥ 0
(at any other phase the function is a no-op), with the deficit reported as
`debt_from_deficit`. -/
theorem money_nonneg_and_deficit_to_debt :
    (∀ (s : GameState) (e : DecisionEffect),
      0 ≤ (apply_decision_effects s e).1.money) ∧
    (∀ (s : GameState) (e : DecisionEffect),
      s.money + e.money_change < 0 →
      (apply_decision_effects s e).1.money = 0 ∧
      (apply_decision_effects s e).1.debts =
        s.debts + e.debt_change - (s.money + e.money_change) ∧
      (apply_decision_effects s e).2.debt_change =
        e.debt_change - (s.money + e.money_change)) ∧
    (∀ s : GameState, s.month_phase = 1 ∨ 0 ≤ s.money →
      0 ≤ (apply_monthly_cash_flow s).1.money) ∧
    (∀ s : GameState, s.month_phase = 1 →
      s.money + (s.monthly_income + s.passive_income) -
        s.monthly_expenses < 0 →
      (apply_monthly_cash_flow s).1.money = 0 ∧
      (apply_monthly_cash_flow s).1.debts =
        s.debts - (s.money + (s.monthly_income + s.passive_income) -
          s.monthly_expenses) ∧
      (apply_monthly_cash_flow s).2.debt_from_deficit =
        -(s.money + (s.monthly_income + s.passive_income) -
          s.monthly_expenses)) := by
  refine ⟨fun s e => ?_, fun s e h => ?_, fun s h => ?_, fun s h1 h2 => ?_⟩
  · simp only [apply_decision_effects]
    split_ifs with h
    · exact le_refl 0
    · exact not_lt.mp h
  · simp only [apply_decision_effects]
    rw [if_pos h, if_pos h, if_pos h, abs_of_neg h]
    exact ⟨rfl, by ring, by ring⟩
  · rcases h with h | h
    · simp only [apply_monthly_cash_flow]
      rw [if_neg (not_not_intro h)]
      split_ifs with hd
    <;> first
      | exact le_refl 0
      | exact not_lt.mp hd
    · by_cases hp : s.month_phase = 1
      · simp only [apply_monthly_cash_flow]
        rw [if_neg (not_not_intro hp)]
        split_ifs with hd
        · exact le_refl 0
        · exact not_lt.mp hd
      · simp only [apply_monthly_cash_flow]
        rw [if_pos hp]
        exact h
  · simp only [apply_monthly_cash_flow]
    rw [if_neg (not_not_intro h1), if_pos h2, if_pos h2, if_pos h2,
      abs_of_neg h2]
    exact ⟨rfl, by ring, by ring⟩

/-- A phase-1 state whose full-month expenses exceed cash plus income:
`100 + (50 + 0) - 500 = -350`. -/
def deficitState : GameState :=
  { money := 100, month_phase := 1, monthly_income := 50,
    monthly_expenses := 500 }

/-- A decision effect spending more cash than the sample state holds. -/
def overdraftEffect : DecisionEffect :=
  { money_change := -150 }

/-- C1 witness: the amended theorem instantiated at the deficit state —
both appliers floor money at 0 and convert the concrete deficits. -/
theorem money_nonneg_and_deficit_to_debt_witness :
    deficitState.money + overdraftEffect.money_change < 0 ∧
    (apply_decision_effects deficitState overdraftEffect).1.money = 0 ∧
    0 ≤ (apply_monthly_cash_flow deficitState).1.money ∧
    deficitState.money + (deficitState.monthly_income +
      deficitState.passive_income) - deficitState.monthly_expenses < 0 ∧
    (apply_monthly_cash_flow deficitState).1.money = 0 := by
  have hd : deficitState.money + overdraftEffect.money_change < 0 := by
    norm_num [deficitState, overdraftEffect]
  have hm : deficitState.money + (deficitState.monthly_income +
      deficitState.passive_income) - deficitState.monthly_expenses < 0 := by
    norm_num [deficitState]
  exact ⟨hd,
    (money_nonneg_and_deficit_to_debt.2.1 deficitState overdraftEffect hd).1,
    money_nonneg_and_deficit_to_debt.2.2.1 deficitState (Or.inl rfl),
    hm,
    (money_nonneg_and_deficit_to_debt.2.2.2 deficitState rfl hm).1⟩

/-- C9: `apply_decision_effects` always advances `current_step` by exactly
1; from `month_phase = 3` it wraps the phase to 1, increments
`months_passed` by 1, sets `years_passed` to the new months divided by 12,
and increments `current_age` exactly when the new `months_passed` is
divisible by 12; from `month_phase` 1 or 2 it increments the phase and
leaves months, years and age unchanged. -/
theorem time_advance_spec (s : GameState) (e : DecisionEffect) :
    (apply_decision_effects s e).1.current_step = s.current_step + 1 ∧
    (s.month_phase = 3 →
      (apply_decision_effects s e).1.month_phase = 1 ∧
      (apply_decision_effects s e).1.months_passed = s.months_passed + 1 ∧
      (apply_decision_effects s e).1.years_passed =
        ((s.months_passed + 1 : ℤ) : ℚ) / 12 ∧
      (apply_decision_effects s e).1.current_age =
        (if (s.months_passed + 1) % 12 = 0 then s.current_age + 1
         else s.current_age)) ∧
    ((s.month_phase = 1 ∨ s.month_phase = 2) →
      (apply_decision_effects s e).1.month_phase = s.month_phase + 1 ∧
      (apply_decision_effects s e).1.months_passed = s.months_passed ∧
      (apply_decision_effects s e).1.years_passed = s.years_passed ∧
      (apply_decision_effects s e).1.current_age = s.current_age) := by
  refine ⟨rfl, fun h3 => ?_, fun h12 => ?_⟩
  · have hw : (3 : ℤ) < s.month_phase + 1 := by omega
    simp only [apply_decision_effects]
    rw [if_pos hw, if_pos hw, if_pos hw, if_pos hw]
    exact ⟨rfl, rfl, rfl, rfl⟩
  · have hw : ¬ ((3 : ℤ) < s.month_phase + 1) := by omega
    simp only [apply_decision_effects]
    rw [if_neg hw, if_neg hw, if_neg hw, if_neg hw]
    exact ⟨rfl, rfl, rfl, rfl⟩

/-- A late-month state one step short of a full year
(`months_passed = 11`, `month_phase = 3`). -/
def lateMonthState : GameState :=
  { months_passed := 11, month_phase := 3, current_age := 25 }

/-- C9 witness: stepping the late-month state wraps to phase 1, reaches
`months_passed = 12` and a 26th birthday, and any earlier phase only
bumps the phase. -/
theorem time_advance_spec_witness :
    (apply_decision_effects lateMonthState {}).1.current_step =
      lateMonthState.current_step + 1 ∧
    (apply_decision_effects lateMonthState {}).1.month_phase = 1 ∧
    (apply_decision_effects lateMonthState {}).1.months_passed = 12 ∧
    (apply_decision_effects lateMonthState {}).1.current_age = 26 ∧
    (apply_decision_effects sampleState {}).1.month_phase = 2 ∧
    (apply_decision_effects sampleState {}).1.months_passed =
      sampleState.months_passed := by
  have h3 := (time_advance_spec lateMonthState {}).2.1 rfl
  have h12 := (time_advance_spec sampleState {}).2.2 (Or.inl rfl)
  refine ⟨(time_advance_spec lateMonthState {}).1, h3.1, ?_, ?_, h12.1, h12.2.1⟩
  · rw [h3.2.1]
    norm_num [lateMonthState]
  · rw [h3.2.2.2]
    norm_num [lateMonthState]

/-- A fallback-aware membership fact: `l.getD n d` is either an element of
`l` or the default `d`. -/
theorem getD_mem_cons {α : Type} (l : List α) (n : ℕ) (d : α) :
    l.getD n d ∈ d :: l := by
  induction l generalizing n with
  | nil => simp [List.getD]
  | cons a t ih =>
    cases n with
    | zero => simp [List.getD]
    | succ m =>
      have h := ih m
      simp only [List.getD, List.get?] at h ⊢
      simp only [List.mem_cons] at h ⊢
      tauto

/-- Every event the phase-2/3 weighted pick can return is one of the eight
`PHASE_2_3_EVENTS` names. -/
theorem phase23_pick_mem (s : GameState) (x : String)
    (hx : x ∈ ((phase23Weights s).filter (fun kv => 0 < kv.2)).map
      (fun kv => kv.1)) : x ∈ PHASE_2_3_EVENTS := by
  rcases List.mem_map.mp hx with ⟨kv, hkv, rfl⟩
  have hmem := (List.mem_filter.mp hkv).1
  fin_cases hmem <;> simp [PHASE_2_3_EVENTS]

/-- C8: `should_trigger_curveball` is false whenever `months_passed < 1`,
regardless of phase, risk factors, debt level, or the random draw; hence
`get_event_type` never returns `"curveball"` on a state with
`months_passed = 0`, whatever the random draws. -/
theorem first_month_no_curveball :
    (∀ (s : GameState) (r : ℚ), s.months_passed < 1 →
      should_trigger_curveball s r = false) ∧
    (∀ (s : GameState) (p : PlayerProfile) (r : ℚ) (i j : ℕ),
      s.months_passed = 0 → get_event_type s p r i j ≠ "curveball") := by
  have hstc : ∀ (s : GameState) (r : ℚ), s.months_passed < 1 →
      should_trigger_curveball s r = false := by
    intro s r h
    simp only [should_trigger_curveball]
    rw [if_pos h]
  refine ⟨hstc, fun s p r i j h0 => ?_⟩
  simp only [get_event_type]
  split_ifs with hph hdebt htrig
  · decide
  · have hmem := getD_mem_cons PHASE_1_EVENTS
      (i % PHASE_1_EVENTS.length) "monthly_budget"
    intro hcv
    rw [hcv] at hmem
    revert hmem
    decide
  · rw [hstc s r (by omega)] at htrig
    exact absurd htrig (by decide)
  · intro hcv
    have hmem := getD_mem_cons
      (((phase23Weights s).filter (fun kv => 0 < kv.2)).map (fun kv => kv.1))
      (j % (((phase23Weights s).filter (fun kv => 0 < kv.2)).map
        (fun kv => kv.1)).length) "daily_choice"
    rcases List.mem_cons.mp hmem with hd | hin
    · rw [hcv] at hd
      revert hd
      decide
    · have := phase23_pick_mem s _ hin
      rw [hcv] at this
      revert this
      decide

/-- C8 witness: a fresh state (`months_passed = 0`) in phase 2 with both
risk factors and heavy debt still rolls no curveball, even on a draw of 0
(below any accumulated probability). -/
def freshRiskyState : GameState :=
  { months_passed := 0, month_phase := 2, debts := 10000,
    monthly_income := 1000,
    risk_factors := [("has_car", true), ("has_pet", true)] }

/-- C8 witness: the theorem instantiated at the fresh risky state. -/
theorem first_month_no_curveball_witness :
    should_trigger_curveball freshRiskyState 0 = false ∧
    get_event_type freshRiskyState {} 0 0 0 ≠ "curveball" :=
  ⟨first_month_no_curveball.1 freshRiskyState 0 (by norm_num [freshRiskyState]),
   first_month_no_curveball.2 freshRiskyState {} 0 0 0 rfl⟩

/-- `pyRound2` preserves a whole-cent lower bound. -/
theorem le_pyRound2 (k : ℤ) (q : ℚ) (h : (k : ℚ) / 100 ≤ q) :
    (k : ℚ) / 100 ≤ pyRound2 q := by
  unfold pyRound2
  have h1 : (k : ℚ) ≤ q * 100 := by linarith
  have h3 : k ≤ roundHalfEven (q * 100) :=
    le_trans (Int.le_floor.mpr h1) (floor_le_roundHalfEven _)
  have h4 : (k : ℚ) ≤ (roundHalfEven (q * 100) : ℚ) := by exact_mod_cast h3
  linarith

/-- `pyRound2` respects a strict half-cent upper margin. -/
theorem pyRound2_le (k : ℤ) (q : ℚ) (h : q < (k : ℚ) / 100 + 1/200) :
    pyRound2 q ≤ (k : ℚ) / 100 := by
  unfold pyRound2
  have h1 : q * 100 < (k : ℚ) + 1/2 := by linarith
  have h3 := roundHalfEven_le_of_lt_half k (q * 100) h1
  have h4 : (roundHalfEven (q * 100) : ℚ) ≤ (k : ℚ) := by exact_mod_cast h3
  linarith

/-- `pyRound2` respects a closed half-cent lower margin when the cent
below `k` is odd (the tie rounds up to the even `k`). -/
theorem le_pyRound2_of_odd (k : ℤ) (q : ℚ)
    (h : (k : ℚ) / 100 - 1/200 ≤ q) (hodd : (k - 1) % 2 ≠ 0) :
    (k : ℚ) / 100 ≤ pyRound2 q := by
  unfold pyRound2
  have h1 : (k : ℚ) - 1/2 ≤ q * 100 := by linarith
  have h3 := le_roundHalfEven_of_half_le_of_odd k (q * 100) h1 hodd
  have h4 : (k : ℚ) ≤ (roundHalfEven (q * 100) : ℚ) := by exact_mod_cast h3
  linarith

/-- `pyRound2` is the identity on integers. -/
theorem pyRound2_intCast (k : ℤ) : pyRound2 (k : ℚ) = (k : ℚ) := by
  unfold pyRound2
  rw [show ((k : ℚ) * 100) = ((k * 100 : ℤ) : ℚ) by push_cast; ring,
    roundHalfEven_intCast]
  push_cast
  ring

/-- C5: for every uniform draw from the "gain" band [1.05, 1.15],
`calculate_investment_outcome(1000, "index_fund", "gain")` returns
`money_change = -1000`, `investment_change ∈ [1050, 1150]` and
`passive_income_change ∈ [1050·0.05/12, 1150·0.05/12]` (outputs rounded to
two decimals). -/
theorem investment_gain_scenario (m : ℚ) (hm1 : 105/100 ≤ m)
    (hm2 : m ≤ 115/100) :
    ∃ o : InvestmentOutcome,
      calculate_investment_outcome 1000 "index_fund" "gain" m =
        Except.ok o ∧
      o.money_change = -1000 ∧
      1050 ≤ o.investment_change ∧ o.investment_change ≤ 1150 ∧
      1050 * (5/100) / 12 ≤ o.passive_income_change ∧
      o.passive_income_change ≤ 1150 * (5/100) / 12 := by
  have habs : |(1000 : ℚ)| = 1000 :=
    abs_of_pos (by norm_num)
  have heq : calculate_investment_outcome 1000 "index_fund" "gain" m =
      Except.ok { money_change := pyRound2 (-1000),
                  investment_change := pyRound2 (1000 * m),
                  passive_income_change :=
                    pyRound2 (1000 * m * (5 / 100 / 12)),
                  net_gain_loss := pyRound2 (1000 * m - 1000) } := by
    simp only [calculate_investment_outcome, ASSET_YIELDS]
    rw [if_neg (by decide), if_neg (by norm_num : ¬ ((1000 : ℚ) = 0)),
      if_pos (by norm_num : (0 : ℚ) < 1000), habs]
    norm_num
  refine ⟨_, heq, ?_, ?_, ?_, ?_, ?_⟩
  · show pyRound2 (-1000) = -1000
    rw [show ((-1000 : ℚ)) = ((-1000 : ℤ) : ℚ) by norm_num, pyRound2_intCast]
  · show (1050 : ℚ) ≤ pyRound2 (1000 * m)
    have h := le_pyRound2 105000 (1000 * m) (by push_cast; linarith)
    push_cast at h
    linarith
  · show pyRound2 (1000 * m) ≤ (1150 : ℚ)
    have h := pyRound2_le 115000 (1000 * m) (by push_cast; linarith)
    push_cast at h
    linarith
  · show (1050 : ℚ) * (5/100) / 12 ≤ pyRound2 (1000 * m * (5 / 100 / 12))
    have h := le_pyRound2_of_odd 438 (1000 * m * (5 / 100 / 12))
      (by push_cast; linarith) (by decide)
    push_cast at h
    linarith
  · show pyRound2 (1000 * m * (5 / 100 / 12)) ≤ (1150 : ℚ) * (5/100) / 12
    have h := pyRound2_le 479 (1000 * m * (5 / 100 / 12))
      (by push_cast; linarith)
    push_cast at h
    linarith

/-- C5 witness: the theorem instantiated at the draw `m = 1.1`. -/
theorem investment_gain_scenario_witness :
    (105/100 : ℚ) ≤ 11/10 ∧ (11/10 : ℚ) ≤ 115/100 ∧
    ∃ o : InvestmentOutcome,
      calculate_investment_outcome 1000 "index_fund" "gain" (11/10) =
        Except.ok o ∧
      o.money_change = -1000 ∧
      1050 ≤ o.investment_change ∧ o.investment_change ≤ 1150 ∧
      1050 * (5/100) / 12 ≤ o.passive_income_change ∧
      o.passive_income_change ≤ 1150 * (5/100) / 12 :=
  ⟨by norm_num, by norm_num,
   investment_gain_scenario (11/10) (by norm_num) (by norm_num)⟩

/-- Six cent-rounded category amounts plus the cent-rounded remainder sum
exactly to any whole-cent total. -/
theorem sum_pyRound2_remainder (T x1 x2 x3 x4 x5 x6 : ℚ) (k : ℤ)
    (hT : T = (k : ℚ) / 100) :
    pyRound2 x1 + pyRound2 x2 + pyRound2 x3 + pyRound2 x4 + pyRound2 x5 +
      pyRound2 x6 +
      pyRound2 (T - (pyRound2 x1 + pyRound2 x2 + pyRound2 x3 + pyRound2 x4 +
        pyRound2 x5 + pyRound2 x6)) = T := by
  obtain ⟨k1, h1⟩ := pyRound2_eq_cents x1
  obtain ⟨k2, h2⟩ := pyRound2_eq_cents x2
  obtain ⟨k3, h3⟩ := pyRound2_eq_cents x3
  obtain ⟨k4, h4⟩ := pyRound2_eq_cents x4
  obtain ⟨k5, h5⟩ := pyRound2_eq_cents x5
  obtain ⟨k6, h6⟩ := pyRound2_eq_cents x6
  have hs : pyRound2 x1 + pyRound2 x2 + pyRound2 x3 + pyRound2 x4 +
      pyRound2 x5 + pyRound2 x6 =
      ((k1 + k2 + k3 + k4 + k5 + k6 : ℤ) : ℚ) / 100 := by
    rw [h1, h2, h3, h4, h5, h6]
    push_cast
    ring
  have hrem : T - (pyRound2 x1 + pyRound2 x2 + pyRound2 x3 + pyRound2 x4 +
      pyRound2 x5 + pyRound2 x6) =
      ((k - (k1 + k2 + k3 + k4 + k5 + k6) : ℤ) : ℚ) / 100 := by
    rw [hs, hT]
    push_cast
    ring
  rw [hrem, hs, pyRound2_int_div, hT]
  push_cast
  ring

/-- A rounded remainder keeps any total within half a cent. -/
theorem sum_pyRound2_remainder_close (T s6 : ℚ) :
    |s6 + pyRound2 (T - s6) - T| ≤ 1/200 := by
  have h := abs_pyRound2_sub_le (T - s6)
  have he : s6 + pyRound2 (T - s6) - T = pyRound2 (T - s6) - (T - s6) := by
    ring
  rw [he]
  exact h

/-- C6: for every whole-cent total `T = n/100 ≥ 0`, every city, car flag
and lifestyle level, the seven values of `calculate_expense_breakdown` sum
exactly to `T`, because the "other" category is assigned the remainder;
moreover for an arbitrary rational total the sum is within half a cent of
it. -/
theorem expense_breakdown_total_exact (n : ℤ) (city : String)
    (has_car : Bool) (lifestyle_level : ℤ) (hn : 0 ≤ n) :
    (calculate_expense_breakdown ((n : ℚ) / 100) city has_car
        lifestyle_level).total = (n : ℚ) / 100 ∧
    ∀ T : ℚ, 0 ≤ T →
      |(calculate_expense_breakdown T city has_car lifestyle_level).total -
        T| ≤ 1/200 := by
  constructor
  · exact sum_pyRound2_remainder _ _ _ _ _ _ _ n rfl
  · intro T _
    exact sum_pyRound2_remainder_close T _

/-- C6 witness: a €1500 whole-cent total with a car at moderate lifestyle
splits into seven categories summing exactly to €1500. -/
theorem expense_breakdown_total_exact_witness :
    (0 : ℤ) ≤ 150000 ∧
    (calculate_expense_breakdown ((150000 : ℤ) / 100 : ℚ) "Helsinki" true
        2).total = ((150000 : ℤ) : ℚ) / 100 ∧
    |(calculate_expense_breakdown (1500 : ℚ) "Helsinki" true 2).total -
      1500| ≤ 1/200 := by
  have h := expense_breakdown_total_exact 150000 "Helsinki" true 2
    (by norm_num)
  exact ⟨by norm_num, by exact_mod_cast h.1, h.2 1500 (by norm_num)⟩

end LifeSim
